import Mathlib

/-!
Verification of the Libramoneda credit and payments engine.

This file shallowly embeds the numeric and state-machine core of the
repository (apps/credits/models.py, apps/payments/models.py,
apps/core/models.py) and proves or refutes the frozen claims about it.

Modelling conventions:
- Python decimal.Decimal values are modelled as exact rationals; every
  explicit source call to .quantize(Decimal(1), rounding=ROUND_HALF_UP) is
  rendered as quantize1 (round to the nearest whole currency unit, ties
  away from zero, which is what decimal ROUND_HALF_UP means).
- Calendar dates are (year, month, day) triples; date subtraction
  (d2 - d1).days becomes rataDie d2 - rataDie d1 with rataDie the
  proleptic Gregorian day count; monthrange(y, m)[1] becomes monthLength.
- Django model rows become structures; nullable columns become Option
  fields; Python truthiness of a nullable decimal (None and 0 are falsy)
  becomes decTruthy.
- Methods that write to the database become functions returning the
  updated records; a method that can hit an undefined attribute returns a
  StatusUpdateResult that records the uncaught exception.
-/

namespace Libramoneda

/-- decimal ROUND_HALF_UP to a whole unit: round to the nearest integer,
ties away from zero. -/
def roundHalfUp (x : ℚ) : ℤ :=
  if 0 ≤ x then ⌊x + 1/2⌋ else -⌊-x + 1/2⌋

/-- Source x.quantize(Decimal(1), rounding=ROUND_HALF_UP), kept in ℚ. -/
def quantize1 (x : ℚ) : ℚ := (roundHalfUp x : ℚ)

/-- x is a whole number of currency units. -/
def IsWhole (x : ℚ) : Prop := ∃ m : ℤ, x = (m : ℚ)

/-! ## Calendar (datetime.date, calendar.monthrange) -/

def isLeapYear (y : ℕ) : Bool :=
  (y % 4 = 0 && y % 100 ≠ 0) || y % 400 = 0

/-- calendar.monthrange(y, m)[1]: number of days of month m of year y. -/
def monthLength (y : ℕ) (m : ℕ) : ℕ :=
  if m = 2 then (if isLeapYear y then 29 else 28)
  else if m = 4 ∨ m = 6 ∨ m = 9 ∨ m = 11 then 30
  else 31

structure Date where
  year : ℕ
  month : ℕ
  day : ℕ
deriving DecidableEq

/-- Days in the months of year y strictly before month m. -/
def daysBeforeMonth (y : ℕ) (m : ℕ) : ℕ :=
  (List.range (m - 1)).foldl (fun acc i => acc + monthLength y (i + 1)) 0

/-- Proleptic Gregorian day number; date differences in the source,
(d2 - d1).days, become rataDie d2 - rataDie d1. -/
def rataDie (d : Date) : ℤ :=
  365 * ((d.year : ℤ) - 1) + ((d.year - 1) / 4 : ℕ) + ((d.year - 1) / 400 : ℕ)
    - ((d.year - 1) / 100 : ℕ) + (daysBeforeMonth d.year d.month : ℤ) + (d.day : ℤ)

/-- date(y, m, monthrange(y, m)[1]): last day of the month. -/
def endOfMonth (y m : ℕ) : Date := ⟨y, m, monthLength y m⟩

/-- Last day of the month after the month of d (the source 12-rollover
pattern repeated at credits/models.py lines 524-530 and 583-592). -/
def nextMonthEnd (d : Date) : Date :=
  if d.month = 12 then endOfMonth (d.year + 1) 1 else endOfMonth d.year (d.month + 1)

/-! ## Payment (apps/payments/models.py) -/

/-- PaymentStatus choices; PARTIAL is rendered partialPaid. -/
inductive PaymentStatus
  | pending
  | partialPaid
  | paid
  | overdue
  | cancelled
deriving DecidableEq

/-- The Payment row (one installment). Pure audit columns that no claim or
modelled method reads (notes, calculated_late_interest, the two
late-interest date stamps, balance_before is kept, period bookkeeping) are
kept only where a modelled method touches them. -/
structure Payment where
  paymentNumber : ℕ
  dueDate : Date
  paymentDeadline : Option Date
  periodDays : ℤ
  scheduledCapital : ℚ
  scheduledInterest : ℚ
  scheduledAval : ℚ
  scheduledIvaAval : ℚ
  scheduledTotal : ℚ
  paidCapital : ℚ
  paidInterest : ℚ
  paidAval : ℚ
  paidIvaAval : ℚ
  paidLateInterest : ℚ
  paidTotal : ℚ
  lateInterestRate : ℚ
  appliedLateInterest : ℚ
  balanceBefore : ℚ
  status : PaymentStatus
  paymentDate : Option Date
deriving DecidableEq

def Payment.remainingCapital (p : Payment) : ℚ := p.scheduledCapital - p.paidCapital

def Payment.remainingInterest (p : Payment) : ℚ := p.scheduledInterest - p.paidInterest

def Payment.remainingAval (p : Payment) : ℚ := p.scheduledAval - p.paidAval

def Payment.remainingIva (p : Payment) : ℚ := p.scheduledIvaAval - p.paidIvaAval

def Payment.remainingLateInterest (p : Payment) : ℚ :=
  p.appliedLateInterest - p.paidLateInterest

/-- Total remaining including applied late interest. -/
def Payment.remainingTotal (p : Payment) : ℚ :=
  p.remainingCapital + p.remainingInterest + p.remainingAval +
    p.remainingIva + p.remainingLateInterest

/-- deadline = self.payment_deadline or self.due_date. -/
def Payment.effectiveDeadline (p : Payment) : Date := p.paymentDeadline.getD p.dueDate

/-- days_overdue property; today is passed explicitly for date.today(). -/
def Payment.daysOverdue (p : Payment) (today : Date) : ℤ :=
  if p.status = PaymentStatus.paid then 0
  else if rataDie p.effectiveDeadline < rataDie today then
    rataDie today - rataDie p.effectiveDeadline
  else 0

/-- Payment.calculate_late_interest.  The rate argument models the
optional rate parameter; when absent the source falls back to
self.late_interest_rate, because InterestRateConfig declares no
late_interest_rate column, so the hasattr branch reading the rate from
the credit rate config is dead code. -/
def Payment.calculateLateInterest (p : Payment) (asOf : Date) (rateArg : Option ℚ) : ℚ :=
  if rataDie asOf ≤ rataDie p.effectiveDeadline then 0
  else
    let rate := rateArg.getD p.lateInterestRate
    if rate = 0 then 0
    else
      let daysLate : ℤ := rataDie asOf - rataDie p.effectiveDeadline
      let dailyRate := rate / 100 / 30
      quantize1 (p.remainingTotal * dailyRate * (daysLate : ℚ))

/-- calculate_late_interest as a state transformer: the method assigns no
attribute, so the stored record it leaves behind is the input record. -/
def Payment.calculateLateInterestRun (p : Payment) (asOf : Date) (rateArg : Option ℚ) :
    ℚ × Payment :=
  (p.calculateLateInterest asOf rateArg, p)

/-- The status Payment._update_status assigns, as a function of the
record before the update (days_overdue reads the status field before the
assignment). -/
def Payment.statusAfterUpdate (p : Payment) (today : Date) : PaymentStatus :=
  let tolerance : ℚ := 10
  let totalDue := p.scheduledTotal + p.appliedLateInterest
  if totalDue - tolerance ≤ p.paidTotal then PaymentStatus.paid
  else if 0 < p.paidTotal then PaymentStatus.partialPaid
  else if 0 < p.daysOverdue today then PaymentStatus.overdue
  else PaymentStatus.pending

/-- Payment._update_status. -/
def Payment.updateStatus (p : Payment) (today : Date) : Payment :=
  { p with status := p.statusAfterUpdate today }

/-- One waterfall step of apply_payment: given the remaining cash and the
remaining due of a component, return (applied amount, cash left). -/
def applyBucket (rem due : ℚ) : ℚ × ℚ :=
  if 0 < due ∧ 0 < rem then (min rem due, rem - min rem due) else (0, rem)

/-- Cash left after running the waterfall over a list of component dues
(proof helper; the five-step chain in apply_payment instantiates it). -/
def waterfallRem (a : ℚ) : List ℚ → ℚ
  | [] => a
  | d :: ds => waterfallRem (applyBucket a d).2 ds

/-- PaymentTransaction row (immutable audit record). -/
structure PaymentTransaction where
  transactionDate : Date
  amount : ℚ
  appliedToLateInterest : ℚ
  appliedToInterest : ℚ
  appliedToAval : ℚ
  appliedToIva : ℚ
  appliedToCapital : ℚ
deriving DecidableEq

/-- PaymentTransaction.total_applied. -/
def PaymentTransaction.totalApplied (t : PaymentTransaction) : ℚ :=
  t.appliedToLateInterest + t.appliedToInterest + t.appliedToAval +
    t.appliedToIva + t.appliedToCapital

/-- Payment.apply_payment: waterfall late interest, interest, aval, IVA,
capital; paid_total grows by the full amount unconditionally; payment_date
is set on first payment; the status is then recomputed and the record
saved, and the transaction row is created from the breakdown.  The credit
side effects (balance decrement by the capital bucket and the credit state
machine call) live on Credit and are modelled there. -/
def Payment.applyPayment (p : Payment) (amount : ℚ) (transactionDate today : Date) :
    Payment × PaymentTransaction :=
  let s1 := applyBucket amount p.remainingLateInterest
  let s2 := applyBucket s1.2 p.remainingInterest
  let s3 := applyBucket s2.2 p.remainingAval
  let s4 := applyBucket s3.2 p.remainingIva
  let s5 := applyBucket s4.2 p.remainingCapital
  let p1 : Payment :=
    { p with
      paidLateInterest := p.paidLateInterest + s1.1
      paidInterest := p.paidInterest + s2.1
      paidAval := p.paidAval + s3.1
      paidIvaAval := p.paidIvaAval + s4.1
      paidCapital := p.paidCapital + s5.1
      paidTotal := p.paidTotal + amount
      paymentDate := some (p.paymentDate.getD transactionDate) }
  (p1.updateStatus today,
   { transactionDate := transactionDate
     amount := amount
     appliedToLateInterest := s1.1
     appliedToInterest := s2.1
     appliedToAval := s3.1
     appliedToIva := s4.1
     appliedToCapital := s5.1 })

/-! ## Credit (apps/credits/models.py, apps/core/models.py) -/

inductive CreditType
  | libranza
  | natural
deriving DecidableEq

/-- CreditStatus declares exactly these members.  Note that PAST_DUE is
referenced by Credit.update_status_from_payments and by the admin module
but is never declared here, so evaluating CreditStatus.PAST_DUE raises
AttributeError at runtime. -/
inductive CreditStatus
  | pending
  | approved
  | rejected
  | disbursed
  | active
  | paid
  | defaulted
  | paidOff
  | cancelled
deriving DecidableEq

/-- InterestRateConfig columns read by the modelled methods. -/
structure InterestRateConfig where
  baseInterestRate : Option ℚ
  avalRateLibranza : ℚ
  avalRateHigh : ℚ
  avalRateLow : ℚ
  ivaRate : ℚ
deriving DecidableEq

/-- The Credit row, restricted to the columns the modelled methods read or
write.  companyPaymentDay stands for company.payment_day of the related
company (none when the credit has no company). -/
structure Credit where
  status : CreditStatus
  creditType : CreditType
  balance : ℚ
  approvedAmount : Option ℚ
  approvedTerm : Option ℕ
  baseInterestRate : Option ℚ
  avalRate : Option ℚ
  ivaRate : Option ℚ
  monthlyPaymentBase : Option ℚ
  monthlyAval : Option ℚ
  monthlyIvaAval : Option ℚ
  disbursementDate : Option Date
  companyPaymentDay : Option ℕ
deriving DecidableEq

/-- Python truthiness of a nullable decimal column: None and 0 are falsy. -/
def decTruthy : Option ℚ → Bool
  | none => false
  | some v => v ≠ 0

/-- Python truthiness of a nullable integer column. -/
def natTruthy : Option ℕ → Bool
  | none => false
  | some v => v ≠ 0

/-- Aval-rate selection inside Credit.save (credits/models.py 353-359). -/
def selectAvalRate (ct : CreditType) (approvedAmount : Option ℚ)
    (cfg : InterestRateConfig) : ℚ :=
  if ct = CreditType.libranza then cfg.avalRateLibranza
  else if decTruthy approvedAmount = true ∧ 5000000 < approvedAmount.getD 0 then
    cfg.avalRateHigh
  else cfg.avalRateLow

/-- The rate-copy step of Credit.save (credits/models.py 348-359): when
the credit is APPROVED, a rate config is attached and base_interest_rate
is still unset, copy base and IVA rates from the config and select the
aval rate. -/
def copyRatesOnApproval (c : Credit) (cfg : InterestRateConfig) : Credit :=
  if c.status = CreditStatus.approved ∧ decTruthy c.baseInterestRate = false then
    { c with
      baseInterestRate := cfg.baseInterestRate
      ivaRate := some cfg.ivaRate
      avalRate := some (selectAvalRate c.creditType c.approvedAmount cfg) }
  else c

/-- Credit.pmt: French constant-installment formula, rounded half-up to a
whole unit. -/
def pmt (principal rate : ℚ) (n : ℕ) : ℚ :=
  if rate = 0 then quantize1 (principal / (n : ℚ))
  else quantize1 (principal * rate / (1 - (1 + rate) ^ (-(n : ℤ))))

/-- The three monthly components stored by calculate_and_save_payments. -/
structure MonthlyBreakdown where
  payBase : ℚ
  avalMonthly : ℚ
  ivaAvalMonthly : ℚ
deriving DecidableEq

/-- Credit.calculate_and_save_payments (credits/models.py 415-448):
note that i1 is the aval rate used as the total rate, mirroring the
source.  The stored monthly_payment field (the quantized sum of the three
components, unread by schedule generation, which re-adds the parts) is
not carried. -/
def calculateMonthlyPayments (approvedAmount : ℚ) (n : ℕ)
    (basePct avalPct ivaPct : ℚ) : MonthlyBreakdown :=
  let P := quantize1 approvedAmount
  let i0 := basePct / 100
  let i1 := avalPct / 100
  let iva := ivaPct / 100
  let payBase := pmt P i0 n
  let payWithAval := pmt P i1 n
  let avalMonthly := quantize1 (payWithAval - payBase)
  let ivaAvalMonthly := quantize1 (avalMonthly * iva)
  ⟨payBase, avalMonthly, ivaAvalMonthly⟩

/-- Credit._calculate_payment_deadline: for libranza with a company
payment day, the company day of the month following the due date, clamped
to that month; otherwise the due date itself. -/
def calculatePaymentDeadline (ct : CreditType) (companyPaymentDay : Option ℕ)
    (dueDate : Date) : Date :=
  if ct ≠ CreditType.libranza ∨ companyPaymentDay.getD 0 = 0 then dueDate
  else
    let ny := if dueDate.month = 12 then dueDate.year + 1 else dueDate.year
    let nm := if dueDate.month = 12 then 1 else dueDate.month + 1
    let lastDay := monthLength ny nm
    ⟨ny, nm, min (companyPaymentDay.getD 0) lastDay⟩

/-- The source clamp: if abono_cap < 0, abono_cap = 0. -/
def clampNonneg (x : ℚ) : ℚ := if x < 0 then 0 else x

/-- The two sequential clamps on the first capital (credits/models.py
547-550): if abono_cap_1 < 0 it becomes 0, then if it exceeds saldo it
becomes saldo. -/
def clampCapital (x saldo : ℚ) : ℚ :=
  if saldo < clampNonneg x then saldo else clampNonneg x

/-- Payments 2..n of generate_payment_schedule (credits/models.py
578-634).  cnt is how many payments are still to build and k is the next
payment number; the caller maintains k + cnt = n + 1.  diasK is
(fecha_final_k - fecha_inicial_k).days with fecha_inicial_k = prevFinal
plus one day, hence the minus one. -/
def buildRest (i0 avalM ivaM paymentMonthly : ℚ) (n : ℕ) (ct : CreditType)
    (cDay : Option ℕ) : ℕ → ℕ → ℚ → Date → List Payment
  | 0, _, _, _ => []
  | cnt + 1, k, saldo, prevFinal =>
    let fechaFinalK := nextMonthEnd prevFinal
    let diasK : ℤ := rataDie fechaFinalK - rataDie prevFinal - 1
    let deadline := calculatePaymentDeadline ct cDay fechaFinalK
    let interesK := quantize1 (saldo * i0 * (diasK : ℚ) / 30)
    let capRaw := quantize1 (paymentMonthly - avalM - ivaM - interesK)
    let abonoCapK := if k = n then saldo else clampNonneg capRaw
    let saldoNext := quantize1 (saldo - abonoCapK)
    let valorCuotaK := quantize1 (abonoCapK + interesK + avalM + ivaM)
    { paymentNumber := k
      dueDate := fechaFinalK
      paymentDeadline := some deadline
      periodDays := diasK
      scheduledCapital := abonoCapK
      scheduledInterest := interesK
      scheduledAval := avalM
      scheduledIvaAval := ivaM
      scheduledTotal := valorCuotaK
      paidCapital := 0, paidInterest := 0, paidAval := 0, paidIvaAval := 0
      paidLateInterest := 0, paidTotal := 0
      lateInterestRate := 0, appliedLateInterest := 0
      balanceBefore := saldo
      status := PaymentStatus.pending
      paymentDate := none } ::
      buildRest i0 avalM ivaM paymentMonthly n ct cDay cnt (k + 1) saldoNext fechaFinalK

/-- First due date of the schedule: the 15-day rule (credits/models.py
513-531). -/
def fechaFinal1 (startDate : Date) : Date :=
  if startDate.day ≤ 15 then endOfMonth startDate.year startDate.month
  else nextMonthEnd startDate

/-- The full installment list built by generate_payment_schedule once the
validations have passed (credits/models.py 482-634). -/
def buildScheduleList (P payBase avalM ivaM i0 : ℚ) (n : ℕ) (startDate : Date)
    (ct : CreditType) (cDay : Option ℕ) : List Payment :=
  let paymentMonthly := payBase + avalM + ivaM
  let f1 := fechaFinal1 startDate
  let dias0 : ℤ := rataDie f1 - rataDie startDate
  let firstDeadline := calculatePaymentDeadline ct cDay f1
  let interesPrimera := quantize1 (P * i0 * (dias0 : ℚ) / 30)
  let interes30 := quantize1 (P * i0 * 30 / 30)
  let interesTramoRestante := quantize1 (interes30 - interesPrimera)
  let paymentFirstMonth := paymentMonthly - interesTramoRestante
  let capRaw := quantize1 (paymentFirstMonth - avalM - ivaM - interesPrimera)
  let abonoCap1 := clampCapital capRaw P
  let saldo1 := quantize1 (P - abonoCap1)
  let valorCuota1 := quantize1 (abonoCap1 + avalM + ivaM + interesPrimera)
  { paymentNumber := 1
    dueDate := f1
    paymentDeadline := some firstDeadline
    periodDays := dias0
    scheduledCapital := abonoCap1
    scheduledInterest := interesPrimera
    scheduledAval := avalM
    scheduledIvaAval := ivaM
    scheduledTotal := valorCuota1
    paidCapital := 0, paidInterest := 0, paidAval := 0, paidIvaAval := 0
    paidLateInterest := 0, paidTotal := 0
    lateInterestRate := 0, appliedLateInterest := 0
    balanceBefore := P
    status := PaymentStatus.pending
    paymentDate := none } ::
    buildRest i0 avalM ivaM paymentMonthly n ct cDay (n - 1) 2 saldo1 f1

/-- Credit.generate_payment_schedule as a transition on the installment
store.  existing is the credit installment list before the call; the
result pairs the Python return value (None on a failed validation, the
created list on success) with the installment store after the call.  The
source deletes all existing installments BEFORE validating, so every exit
leaves the store equal to the second component; on a failed validation it
prints and returns None without raising.  The update_totals_from_schedule
call (which only rewrites credit aggregate totals) is not carried. -/
def Credit.generatePaymentSchedule (c : Credit) (existing : List Payment)
    (today : Date) : Option (List Payment) × List Payment :=
  if decTruthy c.approvedAmount = false ∨ natTruthy c.approvedTerm = false then
    (none, [])
  else if decTruthy c.baseInterestRate = false ∨ decTruthy c.avalRate = false ∨
      decTruthy c.ivaRate = false then
    (none, [])
  else if decTruthy c.monthlyPaymentBase = false ∨ decTruthy c.monthlyAval = false ∨
      decTruthy c.monthlyIvaAval = false then
    (none, [])
  else
    let startDate := c.disbursementDate.getD today
    let cDay := if c.creditType = CreditType.libranza then c.companyPaymentDay else none
    let L := buildScheduleList (c.approvedAmount.getD 0) (c.monthlyPaymentBase.getD 0)
      (c.monthlyAval.getD 0) (c.monthlyIvaAval.getD 0) ((c.baseInterestRate.getD 0) / 100)
      (c.approvedTerm.getD 0) startDate c.creditType cDay
    (some L, L)

/-- The approval-then-disbursement pipeline: calculate_and_save_payments
stores the monthly components, then generate_payment_schedule builds the
installments from them; returns the generated list. -/
def generatedSchedule (approvedAmount : ℚ) (n : ℕ) (basePct avalPct ivaPct : ℚ)
    (startDate : Date) (ct : CreditType) (cDay : Option ℕ) (today : Date) :
    Option (List Payment) :=
  let mb := calculateMonthlyPayments approvedAmount n basePct avalPct ivaPct
  (Credit.generatePaymentSchedule
    { status := CreditStatus.disbursed
      creditType := ct
      balance := approvedAmount
      approvedAmount := some approvedAmount
      approvedTerm := some n
      baseInterestRate := some basePct
      avalRate := some avalPct
      ivaRate := some ivaPct
      monthlyPaymentBase := some mb.payBase
      monthlyAval := some mb.avalMonthly
      monthlyIvaAval := some mb.ivaAvalMonthly
      disbursementDate := some startDate
      companyPaymentDay := cDay } [] today).1

/-- Sum of scheduled_capital over a schedule. -/
def scheduledCapitalSum (ps : List Payment) : ℚ :=
  (ps.map Payment.scheduledCapital).sum

/-! ## Credit state machine (credits/models.py 772-843) -/

/-- Outcome of Credit.update_status_from_payments: a normal return with
the resulting credit row and whether a status write happened, or an
uncaught Python exception. -/
inductive StatusUpdateResult
  | ok (c : Credit) (wrote : Bool)
  | raised (err : String)
deriving DecidableEq

/-- Credit.max_days_overdue: maximum days_overdue over the PENDING,
PARTIAL and OVERDUE installments. -/
def maxDaysOverdue (ps : List Payment) (today : Date) : ℤ :=
  (ps.filter fun p =>
      p.status == PaymentStatus.pending || p.status == PaymentStatus.partialPaid ||
        p.status == PaymentStatus.overdue).foldl
    (fun maxDays p => if maxDays < p.daysOverdue today then p.daysOverdue today else maxDays) 0

/-- Credit.update_status_from_payments.  With no installments it returns
at once, writing nothing.  The 1-29 day branch evaluates
CreditStatus.PAST_DUE, which the CreditStatus enumeration never declares,
so that branch raises AttributeError. -/
def Credit.updateStatusFromPayments (c : Credit) (ps : List Payment) (today : Date) :
    StatusUpdateResult :=
  if ps = [] then .ok c false
  else if c.balance ≤ 0 then
    if c.status ≠ CreditStatus.paidOff then
      .ok { c with status := CreditStatus.paidOff } true
    else .ok c false
  else
    let maxDays := maxDaysOverdue ps today
    if 30 ≤ maxDays then
      if c.status ≠ CreditStatus.defaulted then
        .ok { c with status := CreditStatus.defaulted } true
      else .ok c false
    else if 0 < maxDays then
      .raised "AttributeError: type object CreditStatus has no attribute PAST_DUE"
    else
      if ¬(c.status = CreditStatus.active ∨ c.status = CreditStatus.paidOff) then
        .ok { c with status := CreditStatus.active } true
      else .ok c false

/-! ## Concrete sample rows used by witnesses and counterexamples -/

/-- A pending installment with 100 of applied late interest outstanding;
total remaining due 859. -/
def samplePaymentA : Payment :=
  { paymentNumber := 1
    dueDate := ⟨2025, 5, 31⟩
    paymentDeadline := some ⟨2025, 5, 31⟩
    periodDays := 30
    scheduledCapital := 500
    scheduledInterest := 200
    scheduledAval := 50
    scheduledIvaAval := 9
    scheduledTotal := 759
    paidCapital := 0, paidInterest := 0, paidAval := 0, paidIvaAval := 0
    paidLateInterest := 0, paidTotal := 0
    lateInterestRate := 3, appliedLateInterest := 100
    balanceBefore := 500
    status := PaymentStatus.pending
    paymentDate := none }

/-- A fresh pending installment with total remaining due 1160. -/
def samplePaymentB : Payment :=
  { paymentNumber := 1
    dueDate := ⟨2025, 5, 31⟩
    paymentDeadline := some ⟨2025, 5, 31⟩
    periodDays := 30
    scheduledCapital := 1000
    scheduledInterest := 100
    scheduledAval := 50
    scheduledIvaAval := 10
    scheduledTotal := 1160
    paidCapital := 0, paidInterest := 0, paidAval := 0, paidIvaAval := 0
    paidLateInterest := 0, paidTotal := 0
    lateInterestRate := 3, appliedLateInterest := 0
    balanceBefore := 1000
    status := PaymentStatus.pending
    paymentDate := none }

/-- An unpaid installment of 500000 due 2025-05-31, late rate 3 percent. -/
def samplePaymentC : Payment :=
  { paymentNumber := 2
    dueDate := ⟨2025, 5, 31⟩
    paymentDeadline := some ⟨2025, 5, 31⟩
    periodDays := 30
    scheduledCapital := 400000
    scheduledInterest := 50000
    scheduledAval := 40000
    scheduledIvaAval := 10000
    scheduledTotal := 500000
    paidCapital := 0, paidInterest := 0, paidAval := 0, paidIvaAval := 0
    paidLateInterest := 0, paidTotal := 0
    lateInterestRate := 3, appliedLateInterest := 0
    balanceBefore := 400000
    status := PaymentStatus.pending
    paymentDate := none }

/-- A partially paid installment: 500 already received. -/
def samplePaymentD : Payment :=
  { paymentNumber := 3
    dueDate := ⟨2025, 6, 30⟩
    paymentDeadline := some ⟨2025, 6, 30⟩
    periodDays := 30
    scheduledCapital := 700
    scheduledInterest := 200
    scheduledAval := 80
    scheduledIvaAval := 20
    scheduledTotal := 1000
    paidCapital := 200, paidInterest := 200, paidAval := 80, paidIvaAval := 20
    paidLateInterest := 0, paidTotal := 500
    lateInterestRate := 3, appliedLateInterest := 0
    balanceBefore := 700
    status := PaymentStatus.partialPaid
    paymentDate := some ⟨2025, 7, 2⟩ }

/-- A pending installment whose deadline 2025-03-31 is ten days past on
2025-04-10. -/
def samplePaymentE : Payment :=
  { paymentNumber := 1
    dueDate := ⟨2025, 3, 31⟩
    paymentDeadline := some ⟨2025, 3, 31⟩
    periodDays := 30
    scheduledCapital := 80000
    scheduledInterest := 18800
    scheduledAval := 5000
    scheduledIvaAval := 950
    scheduledTotal := 104750
    paidCapital := 0, paidInterest := 0, paidAval := 0, paidIvaAval := 0
    paidLateInterest := 0, paidTotal := 0
    lateInterestRate := 3, appliedLateInterest := 0
    balanceBefore := 1000000
    status := PaymentStatus.pending
    paymentDate := none }

/-- An active credit with a positive balance, one of whose installments is
ten days overdue on 2025-04-10. -/
def sampleCreditActive : Credit :=
  { status := CreditStatus.active
    creditType := CreditType.natural
    balance := 1000000
    approvedAmount := some 1000000
    approvedTerm := some 12
    baseInterestRate := some (47/25)
    avalRate := some (141/20)
    ivaRate := some 19
    monthlyPaymentBase := some 93000
    monthlyAval := some 5000
    monthlyIvaAval := some 950
    disbursementDate := some ⟨2025, 3, 1⟩
    companyPaymentDay := none }

/-- A disbursed credit whose base interest rate was never captured: the
schedule builder must refuse to build for it. -/
def sampleCreditNoRate : Credit :=
  { status := CreditStatus.disbursed
    creditType := CreditType.natural
    balance := 1000000
    approvedAmount := some 1000000
    approvedTerm := some 12
    baseInterestRate := none
    avalRate := some (141/20)
    ivaRate := some 19
    monthlyPaymentBase := some 93000
    monthlyAval := some 5000
    monthlyIvaAval := some 950
    disbursementDate := some ⟨2025, 3, 1⟩
    companyPaymentDay := none }

/-- An approved natural-person credit over five million with rates not yet
captured. -/
def sampleCreditApproved : Credit :=
  { status := CreditStatus.approved
    creditType := CreditType.natural
    balance := 0
    approvedAmount := some 6000000
    approvedTerm := some 24
    baseInterestRate := none
    avalRate := none
    ivaRate := none
    monthlyPaymentBase := none
    monthlyAval := none
    monthlyIvaAval := none
    disbursementDate := none
    companyPaymentDay := none }

/-- A rate config row with the default aval rates of the source model
(libranza 7.05, high amount 4.05, low amount 7.05) and IVA 19. -/
def sampleRateConfig : InterestRateConfig :=
  { baseInterestRate := some (47/25)
    avalRateLibranza := 141/20
    avalRateHigh := 81/20
    avalRateLow := 141/20
    ivaRate := 19 }

/-! ## Basic facts about the rounding mode -/

theorem floor_one_half : ⌊(1/2 : ℚ)⌋ = 0 := by
  rw [Int.floor_eq_iff] <;> norm_num

theorem roundHalfUp_intCast (m : ℤ) : roundHalfUp (m : ℚ) = m := by
  unfold roundHalfUp
  split_ifs with hm
  · rw [add_comm, Int.floor_add_int, floor_one_half, zero_add]
  · have h : -(m : ℚ) + 1/2 = 1/2 + ((-m : ℤ) : ℚ) := by push_cast; ring
    rw [h, Int.floor_add_int, floor_one_half, zero_add]
    ring

theorem quantize1_intCast (m : ℤ) : quantize1 (m : ℚ) = (m : ℚ) := by
  rw [quantize1, roundHalfUp_intCast]

theorem quantize1_zero : quantize1 0 = 0 := by
  have := quantize1_intCast 0
  simpa using this

theorem isWhole_intCast (m : ℤ) : IsWhole (m : ℚ) := ⟨m, rfl⟩

theorem isWhole_quantize1 (x : ℚ) : IsWhole (quantize1 x) := ⟨roundHalfUp x, rfl⟩

theorem IsWhole.add {x y : ℚ} (hx : IsWhole x) (hy : IsWhole y) : IsWhole (x + y) := by
  rcases hx with ⟨a, rfl⟩
  rcases hy with ⟨b, rfl⟩
  exact ⟨a + b, by push_cast; ring⟩

theorem IsWhole.sub {x y : ℚ} (hx : IsWhole x) (hy : IsWhole y) : IsWhole (x - y) := by
  rcases hx with ⟨a, rfl⟩
  rcases hy with ⟨b, rfl⟩
  exact ⟨a - b, by push_cast; ring⟩

theorem quantize1_eq_self {x : ℚ} (h : IsWhole x) : quantize1 x = x := by
  rcases h with ⟨m, rfl⟩
  exact quantize1_intCast m

theorem roundHalfUp_of_nonneg {x : ℚ} (h : 0 ≤ x) : roundHalfUp x = ⌊x + 1/2⌋ := by
  rw [roundHalfUp, if_pos h]

theorem roundHalfUp_le_roundHalfUp {a b : ℚ} (ha : 0 ≤ a) (hab : a ≤ b) :
    roundHalfUp a ≤ roundHalfUp b := by
  rw [roundHalfUp_of_nonneg ha, roundHalfUp_of_nonneg (ha.trans hab)]
  exact Int.floor_le_floor (by linarith)

theorem quantize1_le_quantize1 {a b : ℚ} (ha : 0 ≤ a) (hab : a ≤ b) :
    quantize1 a ≤ quantize1 b := by
  rw [quantize1, quantize1]
  exact_mod_cast roundHalfUp_le_roundHalfUp ha hab

theorem roundHalfUp_add_intCast {a : ℚ} (m : ℤ) (ha : 0 ≤ a) (ham : 0 ≤ a + m) :
    roundHalfUp (a + m) = roundHalfUp a + m := by
  rw [roundHalfUp_of_nonneg ham, roundHalfUp_of_nonneg ha, add_right_comm,
    Int.floor_add_int]

theorem quantize1_add_intCast {a : ℚ} (m : ℤ) (ha : 0 ≤ a) (ham : 0 ≤ a + m) :
    quantize1 (a + m) = quantize1 a + m := by
  rw [quantize1, quantize1, roundHalfUp_add_intCast m ha ham]
  push_cast
  ring

/-! ## The payment waterfall -/

theorem applyBucket_fst (rem due : ℚ) :
    (applyBucket rem due).1 = rem - (applyBucket rem due).2 := by
  unfold applyBucket
  split_ifs <;> simp

theorem applyBucket_snd_nonneg (rem due : ℚ) (h : 0 ≤ rem) :
    0 ≤ (applyBucket rem due).2 := by
  unfold applyBucket
  split_ifs with hc
  · exact sub_nonneg.2 (min_le_left rem due)
  · exact h

theorem applyBucket_zero (due : ℚ) : applyBucket 0 due = (0, 0) := by
  unfold applyBucket
  split_ifs with h
  · exact absurd h.2 (lt_irrefl 0)
  · rfl

theorem applyBucket_snd_zero_or_le (rem due : ℚ) (h : 0 ≤ rem) :
    (applyBucket rem due).2 = 0 ∨ (applyBucket rem due).2 ≤ rem - due := by
  unfold applyBucket
  split_ifs with hc
  · rcases le_total rem due with h1 | h1
    · left
      simp [min_eq_left h1]
    · right
      simp [min_eq_right h1]
  · by_cases hd : 0 < due
    · have hrem : rem ≤ 0 := by
        by_contra hx
        exact hc ⟨hd, lt_of_not_le hx⟩
      left
      simpa using le_antisymm hrem h
    · right
      push_neg at hd
      simpa using by linarith

theorem waterfallRem_nonneg (ds : List ℚ) : ∀ {a : ℚ}, 0 ≤ a → 0 ≤ waterfallRem a ds := by
  induction ds with
  | nil => intro a h; exact h
  | cons d ds ih =>
    intro a h
    exact ih (applyBucket_snd_nonneg a d h)

theorem waterfallRem_of_zero (ds : List ℚ) : waterfallRem 0 ds = 0 := by
  induction ds with
  | nil => rfl
  | cons d ds ih =>
    show waterfallRem (applyBucket 0 d).2 ds = 0
    rw [applyBucket_zero]
    exact ih

theorem waterfallRem_zero_or_le (ds : List ℚ) :
    ∀ {a : ℚ}, 0 ≤ a → waterfallRem a ds = 0 ∨ waterfallRem a ds ≤ a - ds.sum := by
  induction ds with
  | nil =>
    intro a h
    right
    simp [waterfallRem]
  | cons d ds ih =>
    intro a h
    rcases applyBucket_snd_zero_or_le a d h with h1 | h1
    · left
      show waterfallRem (applyBucket a d).2 ds = 0
      rw [h1, waterfallRem_of_zero]
    · rcases ih (applyBucket_snd_nonneg a d h) with h2 | h2
      · left
        exact h2
      · right
        have : (d :: ds).sum = d + ds.sum := by simp
        show waterfallRem (applyBucket a d).2 ds ≤ a - (d :: ds).sum
        rw [this]
        linarith

theorem waterfallRem_eq_zero (ds : List ℚ) {a : ℚ} (h : 0 ≤ a) (hle : a ≤ ds.sum) :
    waterfallRem a ds = 0 := by
  rcases waterfallRem_zero_or_le ds h with h1 | h1
  · exact h1
  · have h2 := waterfallRem_nonneg ds h
    linarith

theorem waterfall5_sum (a d1 d2 d3 d4 d5 : ℚ) (ha : 0 ≤ a)
    (hle : a ≤ d1 + d2 + d3 + d4 + d5) :
    (applyBucket a d1).1 +
      (applyBucket (applyBucket a d1).2 d2).1 +
      (applyBucket (applyBucket (applyBucket a d1).2 d2).2 d3).1 +
      (applyBucket (applyBucket (applyBucket (applyBucket a d1).2 d2).2 d3).2 d4).1 +
      (applyBucket (applyBucket (applyBucket (applyBucket (applyBucket a d1).2 d2).2 d3).2 d4).2 d5).1
      = a := by
  have hz : waterfallRem a [d1, d2, d3, d4, d5] = 0 := by
    refine waterfallRem_eq_zero _ ha ?_
    simpa using by linarith
  have h5 :
      (applyBucket (applyBucket (applyBucket (applyBucket (applyBucket a d1).2 d2).2 d3).2 d4).2 d5).2
        = 0 := hz
  rw [applyBucket_fst a d1, applyBucket_fst _ d2, applyBucket_fst _ d3,
    applyBucket_fst _ d4, applyBucket_fst _ d5]
  linarith

/-! ## Claim C1 -/

/-- Claim C1 counterexample: a positive cash amount strictly larger than
the installment total remaining due, whose recorded five-way breakdown
sums to the remaining due (1160), not to the amount received (2000).
This refutes the claim as stated for amounts larger than the remaining
due. -/
theorem claim_C1_counterexample :
    ((samplePaymentB.applyPayment 2000 ⟨2025, 6, 1⟩ ⟨2025, 6, 1⟩).2).totalApplied ≠ 2000 ∧
      (0 : ℚ) < 2000 ∧ samplePaymentB.remainingTotal < 2000 ∧
      ((samplePaymentB.applyPayment 2000 ⟨2025, 6, 1⟩ ⟨2025, 6, 1⟩).2).totalApplied =
        samplePaymentB.remainingTotal := by
  norm_num [Payment.applyPayment, applyBucket, PaymentTransaction.totalApplied,
    Payment.remainingTotal, Payment.remainingCapital, Payment.remainingInterest,
    Payment.remainingAval, Payment.remainingIva, Payment.remainingLateInterest,
    samplePaymentB]

/-- Claim C1 (amended): for every cash payment applied to an installment
via apply_payment, the five-way breakdown recorded on the resulting
PaymentTransaction sums exactly to the amount received, for any positive
amount NOT exceeding the installment total remaining due; an excess over
the remaining due is dropped from the breakdown (though still added to
paid_total). -/
theorem claim_C1_breakdown_sums_to_amount (p : Payment) (amount : ℚ)
    (transactionDate today : Date) (hpos : 0 < amount)
    (hle : amount ≤ p.remainingTotal) :
    ((p.applyPayment amount transactionDate today).2).totalApplied = amount := by
  have key := waterfall5_sum amount p.remainingLateInterest p.remainingInterest
    p.remainingAval p.remainingIva p.remainingCapital (le_of_lt hpos)
    (by unfold Payment.remainingTotal at hle; linarith)
  simp only [Payment.applyPayment, PaymentTransaction.totalApplied]
  linarith [key]

/-- Claim C1 witness: a 300 payment against 859 remaining is fully
distributed. -/
theorem claim_C1_breakdown_witness :
    ((samplePaymentA.applyPayment 300 ⟨2025, 6, 1⟩ ⟨2025, 6, 1⟩).2).totalApplied = 300 := by
  exact claim_C1_breakdown_sums_to_amount samplePaymentA 300 ⟨2025, 6, 1⟩ ⟨2025, 6, 1⟩
    (by norm_num)
    (by norm_num [Payment.remainingTotal, Payment.remainingCapital, Payment.remainingInterest,
      Payment.remainingAval, Payment.remainingIva, Payment.remainingLateInterest, samplePaymentA])

/-! ## Claim C6 -/

/-- Claim C6: the late-interest preview returns zero on or before the
effective deadline (payment_deadline, or due_date when absent); after it,
it returns round-half-up(remaining_total * rate / 100 / 30 * days_late)
with days_late the day difference from the deadline; and it leaves the
stored record untouched. -/
theorem claim_C6_late_interest_preview (p : Payment) (asOf : Date) (rateArg : Option ℚ) :
    (rataDie asOf ≤ rataDie p.effectiveDeadline →
      p.calculateLateInterest asOf rateArg = 0) ∧
    (rataDie p.effectiveDeadline < rataDie asOf →
      p.calculateLateInterest asOf rateArg =
        quantize1 (p.remainingTotal * ((rateArg.getD p.lateInterestRate) / 100 / 30) *
          (((rataDie asOf - rataDie p.effectiveDeadline : ℤ) : ℚ)))) ∧
    p.calculateLateInterestRun asOf rateArg = (p.calculateLateInterest asOf rateArg, p) := by
  refine ⟨?_, ?_, rfl⟩
  · intro h
    simp only [Payment.calculateLateInterest]
    rw [if_pos h]
  · intro h
    simp only [Payment.calculateLateInterest]
    rw [if_neg (not_le.2 h)]
    split_ifs with hr
    · rw [hr]
      norm_num [quantize1_zero]
    · rfl

/-- Claim C6 witness: ten days past a 2025-05-31 deadline at rate 3 the
preview on a 500000 installment is 5000; on the deadline itself it is 0. -/
theorem claim_C6_witness :
    samplePaymentC.calculateLateInterest ⟨2025, 6, 10⟩ (some 3) = 5000 ∧
      samplePaymentC.calculateLateInterest ⟨2025, 5, 31⟩ (some 3) = 0 := by
  constructor
  · have h := (claim_C6_late_interest_preview samplePaymentC ⟨2025, 6, 10⟩ (some 3)).2.1
      (by decide)
    rw [h]
    have hd : (rataDie ⟨2025, 6, 10⟩ - rataDie samplePaymentC.effectiveDeadline : ℤ) = 10 := by
      decide
    rw [hd]
    norm_num [samplePaymentC, Payment.remainingTotal, Payment.remainingCapital,
      Payment.remainingInterest, Payment.remainingAval, Payment.remainingIva,
      Payment.remainingLateInterest, quantize1, roundHalfUp]
  · exact (claim_C6_late_interest_preview samplePaymentC ⟨2025, 5, 31⟩ (some 3)).1 (by decide)

/-! ## Claim C7 -/

/-- Claim C7: the status recomputed after a mutation is PAID when
paid_total is at least scheduled_total plus applied_late_interest minus
the 10-unit tolerance; else PARTIAL when paid_total is positive; else
OVERDUE when days_overdue is positive; else PENDING. -/
theorem claim_C7_installment_status (p : Payment) (today : Date) :
    ((p.updateStatus today).status = PaymentStatus.paid ↔
      p.scheduledTotal + p.appliedLateInterest - 10 ≤ p.paidTotal) ∧
    ((p.updateStatus today).status = PaymentStatus.partialPaid ↔
      ¬(p.scheduledTotal + p.appliedLateInterest - 10 ≤ p.paidTotal) ∧ 0 < p.paidTotal) ∧
    ((p.updateStatus today).status = PaymentStatus.overdue ↔
      ¬(p.scheduledTotal + p.appliedLateInterest - 10 ≤ p.paidTotal) ∧
        ¬(0 < p.paidTotal) ∧ 0 < p.daysOverdue today) ∧
    ((p.updateStatus today).status = PaymentStatus.pending ↔
      ¬(p.scheduledTotal + p.appliedLateInterest - 10 ≤ p.paidTotal) ∧
        ¬(0 < p.paidTotal) ∧ ¬(0 < p.daysOverdue today)) := by
  have hst : (p.updateStatus today).status = p.statusAfterUpdate today := rfl
  rw [hst]
  simp only [Payment.statusAfterUpdate]
  by_cases h1 : p.scheduledTotal + p.appliedLateInterest - 10 ≤ p.paidTotal
  · rw [if_pos h1]
    simp [h1]
  · rw [if_neg h1]
    by_cases h2 : 0 < p.paidTotal
    · rw [if_pos h2]
      simp [h1, h2]
    · rw [if_neg h2]
      by_cases h3 : 0 < p.daysOverdue today
      · rw [if_pos h3]
        simp [h1, h2, h3]
      · rw [if_neg h3]
        simp [h1, h2, h3]

/-! ## Claim C8 -/

/-- Claim C8 is a code bug: apply_payment never validates the amount (no
InvalidPaymentAmount exists anywhere in the source, and the
MinValueValidator(0.01) declared on PaymentTransaction.amount is not run
on this path).  Applying -100 to an installment that has 500 paid
decreases paid_total to 400, records a transaction of amount -100 with an
all-zero breakdown, and raises nothing. -/
theorem claim_C8_negative_amount_is_applied :
    ((samplePaymentD.applyPayment (-100) ⟨2025, 7, 10⟩ ⟨2025, 7, 10⟩).1).paidTotal <
        samplePaymentD.paidTotal ∧
      ((samplePaymentD.applyPayment (-100) ⟨2025, 7, 10⟩ ⟨2025, 7, 10⟩).1).paidTotal = 400 ∧
      ((samplePaymentD.applyPayment (-100) ⟨2025, 7, 10⟩ ⟨2025, 7, 10⟩).2).amount = -100 ∧
      ((samplePaymentD.applyPayment (-100) ⟨2025, 7, 10⟩ ⟨2025, 7, 10⟩).2).totalApplied = 0 := by
  norm_num [Payment.applyPayment, applyBucket, PaymentTransaction.totalApplied,
    Payment.updateStatus, Payment.statusAfterUpdate,
    Payment.remainingTotal, Payment.remainingCapital, Payment.remainingInterest,
    Payment.remainingAval, Payment.remainingIva, Payment.remainingLateInterest,
    samplePaymentD]

/-! ## Claim C3 -/

/-- Claim C3 counterexample: invoking schedule generation on a credit
whose base interest rate is missing, while one pre-existing installment is
stored, leaves the installment store EMPTY, not untouched: the source
deletes all installments before validating, then returns None without
raising any exception (no IncompleteCreditTerms exists in the source). -/
theorem claim_C3_counterexample :
    (sampleCreditNoRate.generatePaymentSchedule [samplePaymentB] ⟨2025, 3, 1⟩).2 ≠
        [samplePaymentB] ∧
      sampleCreditNoRate.generatePaymentSchedule [samplePaymentB] ⟨2025, 3, 1⟩ = (none, []) := by
  have h : sampleCreditNoRate.generatePaymentSchedule [samplePaymentB] ⟨2025, 3, 1⟩ =
      (none, []) := by
    norm_num [Credit.generatePaymentSchedule, decTruthy, natTruthy, sampleCreditNoRate]
  refine ⟨?_, h⟩
  rw [h]
  simp

/-- Claim C3 (amended): if schedule generation is invoked on a credit
missing any required input (approved amount, approved term, or any of the
three rates), it returns None without raising and creates no
installments, but the credit pre-existing installments have already been
deleted before the validation runs, so the store is left empty rather
than untouched. -/
theorem claim_C3_missing_inputs_silent (c : Credit) (existing : List Payment) (today : Date)
    (hmiss : decTruthy c.approvedAmount = false ∨ natTruthy c.approvedTerm = false ∨
      decTruthy c.baseInterestRate = false ∨ decTruthy c.avalRate = false ∨
      decTruthy c.ivaRate = false) :
    c.generatePaymentSchedule existing today = (none, []) := by
  unfold Credit.generatePaymentSchedule
  rcases hmiss with h | h | h | h | h
  · rw [if_pos (Or.inl h)]
  · rw [if_pos (Or.inr h)]
  · by_cases h1 : decTruthy c.approvedAmount = false ∨ natTruthy c.approvedTerm = false
    · rw [if_pos h1]
    · rw [if_neg h1, if_pos (Or.inl h)]
  · by_cases h1 : decTruthy c.approvedAmount = false ∨ natTruthy c.approvedTerm = false
    · rw [if_pos h1]
    · rw [if_neg h1, if_pos (Or.inr (Or.inl h))]
  · by_cases h1 : decTruthy c.approvedAmount = false ∨ natTruthy c.approvedTerm = false
    · rw [if_pos h1]
    · rw [if_neg h1, if_pos (Or.inr (Or.inr h))]

/-- Claim C3 witness: generation on the rate-less credit with an empty
store returns None and stores nothing. -/
theorem claim_C3_witness :
    sampleCreditNoRate.generatePaymentSchedule [] ⟨2025, 3, 1⟩ = (none, []) := by
  exact claim_C3_missing_inputs_silent sampleCreditNoRate [] ⟨2025, 3, 1⟩
    (Or.inr (Or.inr (Or.inl rfl)))

/-! ## Claim C4 -/

/-- Claim C4 is a code bug: on an active credit with positive balance and
an installment ten days overdue (the 1-29 band), the re-evaluation
reaches the branch that reads CreditStatus.PAST_DUE, a member the
CreditStatus enumeration never declares, so instead of transitioning to
PAST_DUE the method raises AttributeError. -/
theorem claim_C4_past_due_branch_raises :
    sampleCreditActive.updateStatusFromPayments [samplePaymentE] ⟨2025, 4, 10⟩ =
        StatusUpdateResult.raised
          "AttributeError: type object CreditStatus has no attribute PAST_DUE" ∧
      maxDaysOverdue [samplePaymentE] ⟨2025, 4, 10⟩ = 10 := by
  have h3 : maxDaysOverdue [samplePaymentE] ⟨2025, 4, 10⟩ = 10 := by decide
  refine ⟨?_, h3⟩
  have h1 : ¬([samplePaymentE] = ([] : List Payment)) := by simp
  have h2 : ¬(sampleCreditActive.balance ≤ 0) := by norm_num [sampleCreditActive]
  simp only [Credit.updateStatusFromPayments, h3]
  rw [if_neg h1, if_neg h2]
  norm_num

/-! ## Claim C9 -/

/-- Claim C9: when a credit transitions to APPROVED with rates not yet
captured, the aval rate copied from the rate config is the libranza rate
for LIBRANZA credits, else the high-amount rate when the approved amount
exceeds 5,000,000, else the low-amount rate. -/
theorem claim_C9_aval_rate_selection (c : Credit) (cfg : InterestRateConfig)
    (happr : c.status = CreditStatus.approved)
    (hunset : decTruthy c.baseInterestRate = false) :
    (copyRatesOnApproval c cfg).avalRate =
      some (if c.creditType = CreditType.libranza then cfg.avalRateLibranza
        else if 5000000 < c.approvedAmount.getD 0 then cfg.avalRateHigh
        else cfg.avalRateLow) := by
  unfold copyRatesOnApproval
  rw [if_pos ⟨happr, hunset⟩]
  show some (selectAvalRate c.creditType c.approvedAmount cfg) = _
  unfold selectAvalRate
  congr 1
  by_cases hct : c.creditType = CreditType.libranza
  · rw [if_pos hct, if_pos hct]
  · rw [if_neg hct, if_neg hct]
    by_cases hamt : 5000000 < c.approvedAmount.getD 0
    · have htr : decTruthy c.approvedAmount = true := by
        rcases hA : c.approvedAmount with _ | a
        · rw [hA] at hamt
          norm_num [Option.getD] at hamt
        · rw [hA] at hamt
          simp only [Option.getD] at hamt
          simp only [decTruthy, decide_eq_true_eq]
          intro h0
          rw [h0] at hamt
          norm_num at hamt
      rw [if_pos ⟨htr, hamt⟩, if_pos hamt]
    · rw [if_neg (fun hcon => hamt hcon.2), if_neg hamt]

/-- Claim C9 witness: a natural-person credit approved at 6,000,000 gets
the high-amount aval rate 4.05. -/
theorem claim_C9_witness :
    (copyRatesOnApproval sampleCreditApproved sampleRateConfig).avalRate = some (81/20) := by
  have h := claim_C9_aval_rate_selection sampleCreditApproved sampleRateConfig rfl rfl
  rw [h]
  norm_num [sampleCreditApproved, sampleRateConfig]
  decide

/-! ## Claim C10 -/

/-- Claim C10: the credit status re-evaluation on a credit with no
installments returns immediately: no write happens and the status field
is unchanged, for every starting status and every balance, including
balance at or below zero, where no PAID_OFF transition occurs. -/
theorem claim_C10_no_installments_no_write (c : Credit) (today : Date) :
    c.updateStatusFromPayments [] today = StatusUpdateResult.ok c false := by
  simp [Credit.updateStatusFromPayments]

/-! ## Schedule arithmetic -/

theorem scheduledCapitalSum_nil : scheduledCapitalSum [] = 0 := rfl

theorem scheduledCapitalSum_cons (p : Payment) (ps : List Payment) :
    scheduledCapitalSum (p :: ps) = p.scheduledCapital + scheduledCapitalSum ps := by
  simp [scheduledCapitalSum]

theorem isWhole_clampNonneg {x : ℚ} (h : IsWhole x) : IsWhole (clampNonneg x) := by
  unfold clampNonneg
  split_ifs
  · exact ⟨0, by norm_num⟩
  · exact h

theorem isWhole_clampCapital {x saldo : ℚ} (hx : IsWhole x) (hs : IsWhole saldo) :
    IsWhole (clampCapital x saldo) := by
  unfold clampCapital
  split_ifs
  · exact hs
  · exact isWhole_clampNonneg hx

theorem clampCapital_of_bounds {x saldo : ℚ} (h0 : 0 ≤ x) (hle : x ≤ saldo) :
    clampCapital x saldo = x := by
  unfold clampCapital clampNonneg
  rw [if_neg (not_lt.2 h0), if_neg (not_lt.2 hle)]

/-- Telescoping sum of the loop capitals: because the final payment plugs
the whole remaining balance and each balance update is an exact integer
subtraction when the running balance is whole, the capitals of payments
k..n sum to the balance entering payment k. -/
theorem buildRest_capSum (i0 avalM ivaM payM : ℚ) (n : ℕ) (ct : CreditType)
    (cDay : Option ℕ) :
    ∀ (cnt : ℕ) (k : ℕ) (saldo : ℚ) (prev : Date), k + cnt = n + 1 → 1 ≤ cnt →
      IsWhole saldo →
      scheduledCapitalSum (buildRest i0 avalM ivaM payM n ct cDay cnt k saldo prev) = saldo := by
  intro cnt
  induction cnt with
  | zero =>
    intro k saldo prev hk h1 hw
    exact absurd h1 (by norm_num)
  | succ c ih =>
    intro k saldo prev hk h1 hw
    rcases Nat.eq_zero_or_pos c with hc | hc
    · subst hc
      have hkn : k = n := by omega
      simp only [buildRest, scheduledCapitalSum_cons, scheduledCapitalSum_nil]
      rw [if_pos hkn]
      ring
    · have hkn : ¬(k = n) := by omega
      simp only [buildRest, scheduledCapitalSum_cons]
      rw [if_neg hkn]
      rw [quantize1_eq_self (hw.sub (isWhole_clampNonneg (isWhole_quantize1 _)))]
      rw [ih (k + 1) _ (nextMonthEnd prev) (by omega) hc
        (hw.sub (isWhole_clampNonneg (isWhole_quantize1 _)))]
      ring

/-- The first-payment raw capital reduces to pay_base minus the full
30-day interest: the aval, IVA and prorated-interest terms cancel, and
the quantizations are identities on whole values. -/
theorem capRaw_first_eq (payBase avalM ivaM intPrim int30 : ℚ)
    (hpb : IsWhole payBase) (hint30 : IsWhole int30) (hintp : IsWhole intPrim) :
    quantize1 (((payBase + avalM + ivaM) - quantize1 (int30 - intPrim)) - avalM - ivaM - intPrim)
      = payBase - int30 := by
  rw [quantize1_eq_self (hint30.sub hintp)]
  rw [show ((payBase + avalM + ivaM) - (int30 - intPrim)) - avalM - ivaM - intPrim
    = payBase - int30 from by ring]
  exact quantize1_eq_self (hpb.sub hint30)

theorem pmt_of_rate_ne_zero (P i0 : ℚ) (n : ℕ) (hi : i0 ≠ 0) :
    pmt P i0 n = quantize1 (P * i0 / (1 - (1 + i0) ^ (-(n : ℤ)))) := by
  rw [pmt, if_neg hi]

theorem isWhole_pmt (P i0 : ℚ) (n : ℕ) : IsWhole (pmt P i0 n) := by
  unfold pmt
  split_ifs
  · exact isWhole_quantize1 _
  · exact isWhole_quantize1 _

/-- For one period the annuity formula collapses: pmt(P, i, 1) is the
rounding of P(1+i). -/
theorem pmt_one_eq (P i0 : ℚ) (hi : 0 < i0) : pmt P i0 1 = quantize1 (P * (1 + i0)) := by
  rw [pmt_of_rate_ne_zero P i0 1 hi.ne']
  congr 1
  have h0 : (1 : ℚ) + i0 ≠ 0 := by linarith
  rw [show (-((1 : ℕ) : ℤ)) = (-1 : ℤ) from rfl, zpow_neg_one]
  field_simp
  ring

theorem annuity_den_pos {i0 : ℚ} (hi : 0 < i0) {n : ℕ} (hn : 1 ≤ n) :
    0 < 1 - (1 + i0) ^ (-(n : ℤ)) := by
  have h1 : (1 : ℚ) < 1 + i0 := by linarith
  have hgt : 1 < (1 + i0) ^ n := one_lt_pow h1 (by omega)
  rw [zpow_neg, zpow_natCast]
  have : ((1 + i0) ^ n)⁻¹ < 1 := inv_lt_one hgt
  linarith

theorem annuity_den_lt_one {i0 : ℚ} (hi : 0 < i0) (n : ℕ) :
    1 - (1 + i0) ^ (-(n : ℤ)) < 1 := by
  have h0 : (0 : ℚ) < 1 + i0 := by linarith
  have : (0 : ℚ) < (1 + i0) ^ (-(n : ℤ)) := zpow_pos h0 _
  linarith

theorem annuity_den_ge {i0 : ℚ} (hi : 0 < i0) {n : ℕ} (hn : 1 ≤ n) :
    i0 / (1 + i0) ≤ 1 - (1 + i0) ^ (-(n : ℤ)) := by
  have h0 : (0 : ℚ) < 1 + i0 := by linarith
  have h1 : (1 : ℚ) ≤ 1 + i0 := by linarith
  have hmono : (1 + i0) ^ 1 ≤ (1 + i0) ^ n := pow_le_pow_right h1 hn
  have hinv : ((1 + i0) ^ n)⁻¹ ≤ ((1 + i0) ^ 1)⁻¹ := by
    apply inv_le_inv_of_le (by positivity) hmono
  rw [zpow_neg, zpow_natCast]
  have hid : ((1 + i0) ^ 1)⁻¹ = (1 + i0)⁻¹ := by norm_num
  have hfrac : 1 - (1 + i0)⁻¹ = i0 / (1 + i0) := by
    field_simp
  rw [hid] at hinv
  linarith [hfrac, hinv]

/-- The level base payment is at least the full 30-day interest on the
principal. -/
theorem pmt_ge_interes30 (P i0 : ℚ) (n : ℕ) (hP : 0 ≤ P) (hi : 0 < i0) (hn : 1 ≤ n) :
    quantize1 (P * i0) ≤ pmt P i0 n := by
  rw [pmt_of_rate_ne_zero P i0 n hi.ne']
  apply quantize1_le_quantize1 (mul_nonneg hP hi.le)
  rw [le_div_iff (annuity_den_pos hi hn)]
  have h1 := annuity_den_lt_one hi n
  nlinarith [mul_nonneg hP hi.le]

/-- The level base payment never exceeds principal plus one month of
interest. -/
theorem pmt_le_principal_plus (P i0 : ℚ) (n : ℕ) (hP : 0 ≤ P) (hi : 0 < i0) (hn : 1 ≤ n) :
    pmt P i0 n ≤ quantize1 (P * (1 + i0)) := by
  rw [pmt_of_rate_ne_zero P i0 n hi.ne']
  apply quantize1_le_quantize1
    (div_nonneg (mul_nonneg hP hi.le) (annuity_den_pos hi hn).le)
  rw [div_le_iff (annuity_den_pos hi hn)]
  have hge := annuity_den_ge hi hn
  have h0 : (0 : ℚ) < 1 + i0 := by linarith
  have hkey : P * (1 + i0) * (i0 / (1 + i0)) = P * i0 := by
    field_simp
    ring
  nlinarith [mul_le_mul_of_nonneg_left hge
    (mul_nonneg hP (show (0 : ℚ) ≤ 1 + i0 by linarith))]

/-- Unfolding of a successful generate_payment_schedule call: whatever
list it returns is the one buildScheduleList constructs from the stored
columns. -/
theorem generate_some_eq (c : Credit) (existing : List Payment) (today : Date)
    (ps : List Payment) (h : (c.generatePaymentSchedule existing today).1 = some ps) :
    ps = buildScheduleList (c.approvedAmount.getD 0) (c.monthlyPaymentBase.getD 0)
      (c.monthlyAval.getD 0) (c.monthlyIvaAval.getD 0) ((c.baseInterestRate.getD 0) / 100)
      (c.approvedTerm.getD 0) (c.disbursementDate.getD today) c.creditType
      (if c.creditType = CreditType.libranza then c.companyPaymentDay else none) := by
  simp only [Credit.generatePaymentSchedule] at h
  split_ifs at h with hv1 hv2 hv3 hct
  · rw [if_pos hct]
    exact (Option.some.inj h).symm
  · rw [if_neg hct]
    exact (Option.some.inj h).symm

/-- A successful pipeline run returns exactly the buildScheduleList of
the calculated monthly components. -/
theorem generatedSchedule_some (P : ℚ) (n : ℕ) (basePct avalPct ivaPct : ℚ)
    (startDate : Date) (ct : CreditType) (cDay : Option ℕ) (today : Date)
    (h1 : P ≠ 0) (h2 : n ≠ 0) (h3 : basePct ≠ 0) (h4 : avalPct ≠ 0) (h5 : ivaPct ≠ 0)
    (h6 : (calculateMonthlyPayments P n basePct avalPct ivaPct).payBase ≠ 0)
    (h7 : (calculateMonthlyPayments P n basePct avalPct ivaPct).avalMonthly ≠ 0)
    (h8 : (calculateMonthlyPayments P n basePct avalPct ivaPct).ivaAvalMonthly ≠ 0) :
    generatedSchedule P n basePct avalPct ivaPct startDate ct cDay today =
      some (buildScheduleList P (calculateMonthlyPayments P n basePct avalPct ivaPct).payBase
        (calculateMonthlyPayments P n basePct avalPct ivaPct).avalMonthly
        (calculateMonthlyPayments P n basePct avalPct ivaPct).ivaAvalMonthly
        (basePct / 100) n startDate ct
        (if ct = CreditType.libranza then cDay else none)) := by
  simp only [generatedSchedule, Credit.generatePaymentSchedule]
  rw [if_neg (by simp [decTruthy, natTruthy, h1, h2]),
    if_neg (by simp [decTruthy, h3, h4, h5]),
    if_neg (by simp [decTruthy, h6, h7, h8])]
  simp [Option.getD]

/-- Sum of the scheduled capitals of the full built schedule, for a whole
positive principal and positive base rate, when the monthly base payment
comes from the pmt pipeline. -/
theorem buildScheduleList_capSum (p : ℤ) (hp : 0 < p) (i0 : ℚ) (hi : 0 < i0)
    (avalM ivaM : ℚ) (n : ℕ) (hn : 1 ≤ n) (startDate : Date) (ct : CreditType)
    (cDay : Option ℕ) :
    scheduledCapitalSum
      (buildScheduleList (p : ℚ) (pmt (p : ℚ) i0 n) avalM ivaM i0 n startDate ct cDay)
      = (p : ℚ) := by
  have hp0 : (0 : ℚ) ≤ (p : ℚ) := by exact_mod_cast hp.le
  simp only [buildScheduleList, scheduledCapitalSum_cons]
  rcases Nat.lt_or_ge n 2 with hn2 | hn2
  · -- n = 1: the loop is empty and the first capital is the whole principal
    have hn1 : n = 1 := by omega
    subst hn1
    simp only [buildRest, scheduledCapitalSum_nil]
    have hpb : pmt (p : ℚ) i0 1 = quantize1 ((p : ℚ) * i0) + (p : ℚ) := by
      rw [pmt_one_eq _ _ hi,
        show (p : ℚ) * (1 + i0) = (p : ℚ) * i0 + ((p : ℤ) : ℚ) from by push_cast; ring,
        quantize1_add_intCast p (mul_nonneg hp0 hi.le)
          (by push_cast; nlinarith [mul_nonneg hp0 hi.le])]
      all_goals push_cast
      all_goals ring
    have h30 : quantize1 ((p : ℚ) * i0 * 30 / 30) = quantize1 ((p : ℚ) * i0) := by
      rw [show (p : ℚ) * i0 * 30 / 30 = (p : ℚ) * i0 from by ring]
    have hraw := capRaw_first_eq (pmt (p : ℚ) i0 1) avalM ivaM
      (quantize1 ((p : ℚ) * i0 *
        ((rataDie (fechaFinal1 startDate) - rataDie startDate : ℤ) : ℚ) / 30))
      (quantize1 ((p : ℚ) * i0 * 30 / 30)) (isWhole_pmt _ _ _) (isWhole_quantize1 _)
      (isWhole_quantize1 _)
    rw [hraw, h30, hpb]
    rw [show quantize1 ((p : ℚ) * i0) + (p : ℚ) - quantize1 ((p : ℚ) * i0) = (p : ℚ) from by
      ring]
    rw [clampCapital_of_bounds hp0 (le_refl _)]
    try ring
  · -- n >= 2: telescoping through the loop
    rw [quantize1_eq_self ((isWhole_intCast p).sub
      (isWhole_clampCapital (isWhole_quantize1 _) (isWhole_intCast p)))]
    rw [buildRest_capSum i0 avalM ivaM _ n ct cDay (n - 1) 2 _ (fechaFinal1 startDate)
      (by omega) (by omega) ((isWhole_intCast p).sub
        (isWhole_clampCapital (isWhole_quantize1 _) (isWhole_intCast p)))]
    ring

/-! ## Claim C2 -/

/-- Claim C2 counterexample: a generated schedule for approved principal
100000.40 (two decimal places are allowed by the column type), term 2,
rates 1.88 / 7.05 / 19, disbursed 2025-01-10: the schedule exists but its
scheduled capitals sum to 100000, not to the principal — the per-period
balance is quantized to whole units, so the fractional cents are
discarded and the final plug repays only the quantized balance. -/
theorem claim_C2_counterexample :
    generatedSchedule (500002/5) 2 (47/25) (141/20) 19 ⟨2025, 1, 10⟩
        CreditType.natural none ⟨2025, 1, 10⟩ ≠ none ∧
      scheduledCapitalSum ((generatedSchedule (500002/5) 2 (47/25) (141/20) 19 ⟨2025, 1, 10⟩
        CreditType.natural none ⟨2025, 1, 10⟩).getD []) ≠ (500002/5 : ℚ) := by
  constructor
  · norm_num [generatedSchedule, Credit.generatePaymentSchedule, calculateMonthlyPayments,
      pmt, decTruthy, natTruthy, quantize1, roundHalfUp]
    exact Option.some_ne_none _
  · norm_num [generatedSchedule, Credit.generatePaymentSchedule, calculateMonthlyPayments,
      pmt, buildScheduleList, buildRest, fechaFinal1, nextMonthEnd, endOfMonth, monthLength,
      isLeapYear, rataDie, daysBeforeMonth, calculatePaymentDeadline, quantize1, roundHalfUp,
      decTruthy, natTruthy, scheduledCapitalSum, clampNonneg, clampCapital, List.range]

/-- Claim C2 (amended): for every generated schedule with a whole-unit
positive approved principal, any approved term n of at least 1, and a
positive base rate, the sum of scheduled_capital across the n
installments equals the approved principal exactly (for n of at least 2
because the final installment capital is forced to the remaining
balance; for n = 1 because the prorated first capital works out to the
principal).  For fractional principals the equality fails, because each
balance update is quantized to whole units. -/
theorem claim_C2_capital_sums_to_principal (p : ℤ) (hp : 0 < p) (n : ℕ) (hn : 1 ≤ n)
    (basePct avalPct ivaPct : ℚ) (hbase : 0 < basePct) (startDate : Date)
    (ct : CreditType) (cDay : Option ℕ) (today : Date) (ps : List Payment)
    (hgen : generatedSchedule (p : ℚ) n basePct avalPct ivaPct startDate ct cDay today =
      some ps) :
    scheduledCapitalSum ps = (p : ℚ) := by
  have hps := generate_some_eq
    { status := CreditStatus.disbursed, creditType := ct, balance := (p : ℚ),
      approvedAmount := some (p : ℚ), approvedTerm := some n,
      baseInterestRate := some basePct, avalRate := some avalPct, ivaRate := some ivaPct,
      monthlyPaymentBase :=
        some (calculateMonthlyPayments (p : ℚ) n basePct avalPct ivaPct).payBase,
      monthlyAval :=
        some (calculateMonthlyPayments (p : ℚ) n basePct avalPct ivaPct).avalMonthly,
      monthlyIvaAval :=
        some (calculateMonthlyPayments (p : ℚ) n basePct avalPct ivaPct).ivaAvalMonthly,
      disbursementDate := some startDate, companyPaymentDay := cDay }
    [] today ps hgen
  simp only [Option.getD_some] at hps
  have hpb : (calculateMonthlyPayments (p : ℚ) n basePct avalPct ivaPct).payBase =
      pmt (p : ℚ) (basePct / 100) n := by
    simp only [calculateMonthlyPayments, quantize1_intCast]
  rw [hps, hpb]
  exact buildScheduleList_capSum p hp (basePct / 100) (by linarith) _ _ n hn startDate ct _

/-- Claim C2 witness: principal 1,000,000 over 2 months at 1.88 / 7.05 /
19 disbursed 2025-01-10 generates a schedule whose capitals sum to
exactly 1,000,000. -/
theorem claim_C2_witness :
    scheduledCapitalSum ((generatedSchedule 1000000 2 (47/25) (141/20) 19 ⟨2025, 1, 10⟩
      CreditType.natural none ⟨2025, 1, 10⟩).getD []) = 1000000 := by
  have hg := generatedSchedule_some 1000000 2 (47/25) (141/20) 19 ⟨2025, 1, 10⟩
    CreditType.natural none ⟨2025, 1, 10⟩ (by norm_num) (by norm_num) (by norm_num)
    (by norm_num) (by norm_num)
    (by norm_num [calculateMonthlyPayments, pmt, quantize1, roundHalfUp])
    (by norm_num [calculateMonthlyPayments, pmt, quantize1, roundHalfUp])
    (by norm_num [calculateMonthlyPayments, pmt, quantize1, roundHalfUp])
  have hcap := claim_C2_capital_sums_to_principal 1000000 (by norm_num) 2 (by norm_num)
    (47/25) (141/20) 19 (by norm_num) ⟨2025, 1, 10⟩ CreditType.natural none ⟨2025, 1, 10⟩
    _ (by exact_mod_cast hg)
  rw [hg]
  simpa using hcap

/-! ## Claim C5 -/

/-- Claim C5 counterexample: the schedule generated for the fractional
approved principal 1675.50 (the column allows two decimal places), term
1, rates 1.88 / 7.05 / 19, disbursed 2025-03-10, has a first installment
whose recorded total due is 1800, while the claimed formula
monthly_total - (round(principal * base_rate) - prorated interest)
evaluates to 1801 over the same inputs: the raw first capital 1677
exceeds the 1675.50 balance, the upper clamp fires, and the recorded
total quantizes 1675.50 + 86 + 16 + 22 down to 1800.  This refutes the
claim as stated for fractional principals. -/
theorem claim_C5_counterexample :
    generatedSchedule (3351/2) 1 (47/25) (141/20) 19 ⟨2025, 3, 10⟩
        CreditType.natural none ⟨2025, 3, 10⟩ ≠ none ∧
      ((generatedSchedule (3351/2) 1 (47/25) (141/20) 19 ⟨2025, 3, 10⟩
        CreditType.natural none ⟨2025, 3, 10⟩).getD []).head?.map Payment.periodDays =
        some 21 ∧
      ((generatedSchedule (3351/2) 1 (47/25) (141/20) 19 ⟨2025, 3, 10⟩
        CreditType.natural none ⟨2025, 3, 10⟩).getD []).head?.map Payment.scheduledTotal =
        some 1800 ∧
      ((calculateMonthlyPayments (3351/2) 1 (47/25) (141/20) 19).payBase +
          (calculateMonthlyPayments (3351/2) 1 (47/25) (141/20) 19).avalMonthly +
          (calculateMonthlyPayments (3351/2) 1 (47/25) (141/20) 19).ivaAvalMonthly) -
        (quantize1 ((3351/2 : ℚ) * ((47/25) / 100)) -
          quantize1 ((3351/2 : ℚ) * ((47/25) / 100) * ((21 : ℤ) : ℚ) / 30)) = 1801 := by
  refine ⟨?_, ?_, ?_, ?_⟩
  · norm_num [generatedSchedule, Credit.generatePaymentSchedule, calculateMonthlyPayments,
      pmt, decTruthy, natTruthy, quantize1, roundHalfUp]
    exact Option.some_ne_none _
  · norm_num [generatedSchedule, Credit.generatePaymentSchedule, calculateMonthlyPayments,
      pmt, buildScheduleList, buildRest, fechaFinal1, nextMonthEnd, endOfMonth, monthLength,
      isLeapYear, rataDie, daysBeforeMonth, calculatePaymentDeadline, quantize1, roundHalfUp,
      decTruthy, natTruthy, clampNonneg, clampCapital, List.range, Option.getD,
      List.head?, Option.map_some']
  · norm_num [generatedSchedule, Credit.generatePaymentSchedule, calculateMonthlyPayments,
      pmt, buildScheduleList, buildRest, fechaFinal1, nextMonthEnd, endOfMonth, monthLength,
      isLeapYear, rataDie, daysBeforeMonth, calculatePaymentDeadline, quantize1, roundHalfUp,
      decTruthy, natTruthy, clampNonneg, clampCapital, List.range, Option.getD,
      List.head?, Option.map_some']
  · norm_num [calculateMonthlyPayments, pmt, quantize1, roundHalfUp]

/-- Claim C5 (amended): for every generated schedule with a whole-unit
positive approved principal and a positive base rate, installment 1 obeys
the 15-day rule: with a disbursement day of month at most 15 its due date
is the last day of the disbursement month, otherwise the last day of the
following month; its period day count is the day difference from
disbursement to the due date; its scheduled interest is round-half-up of
principal * base-rate-fraction * period_days / 30; and its total due is
the monthly total minus (round-half-up(principal * base-rate-fraction)
minus that prorated interest).  For a fractional principal the upper
capital clamp can fire and the recorded total due falls below the
formula, so the whole-unit restriction is necessary. -/
theorem claim_C5_first_installment (p : ℤ) (hp : 0 < p) (n : ℕ) (hn : 1 ≤ n)
    (basePct avalPct ivaPct : ℚ) (hbase : 0 < basePct) (startDate : Date)
    (ct : CreditType) (cDay : Option ℕ) (today : Date) (ps : List Payment) (p1 : Payment)
    (hgen : generatedSchedule (p : ℚ) n basePct avalPct ivaPct startDate ct cDay today =
      some ps)
    (hhead : ps.head? = some p1) :
    (startDate.day ≤ 15 → p1.dueDate = endOfMonth startDate.year startDate.month) ∧
    (¬(startDate.day ≤ 15) →
      p1.dueDate =
        endOfMonth (if startDate.month = 12 then startDate.year + 1 else startDate.year)
          (if startDate.month = 12 then 1 else startDate.month + 1)) ∧
    p1.periodDays = rataDie p1.dueDate - rataDie startDate ∧
    p1.scheduledInterest =
      quantize1 ((p : ℚ) * (basePct / 100) *
        ((rataDie p1.dueDate - rataDie startDate : ℤ) : ℚ) / 30) ∧
    p1.scheduledTotal =
      ((calculateMonthlyPayments (p : ℚ) n basePct avalPct ivaPct).payBase +
          (calculateMonthlyPayments (p : ℚ) n basePct avalPct ivaPct).avalMonthly +
          (calculateMonthlyPayments (p : ℚ) n basePct avalPct ivaPct).ivaAvalMonthly) -
        (quantize1 ((p : ℚ) * (basePct / 100)) - p1.scheduledInterest) := by
  have hp0 : (0 : ℚ) ≤ (p : ℚ) := by exact_mod_cast hp.le
  have hi : (0 : ℚ) < basePct / 100 := by linarith
  have hps := generate_some_eq
    { status := CreditStatus.disbursed, creditType := ct, balance := (p : ℚ),
      approvedAmount := some (p : ℚ), approvedTerm := some n,
      baseInterestRate := some basePct, avalRate := some avalPct, ivaRate := some ivaPct,
      monthlyPaymentBase :=
        some (calculateMonthlyPayments (p : ℚ) n basePct avalPct ivaPct).payBase,
      monthlyAval :=
        some (calculateMonthlyPayments (p : ℚ) n basePct avalPct ivaPct).avalMonthly,
      monthlyIvaAval :=
        some (calculateMonthlyPayments (p : ℚ) n basePct avalPct ivaPct).ivaAvalMonthly,
      disbursementDate := some startDate, companyPaymentDay := cDay }
    [] today ps hgen
  simp only [Option.getD_some] at hps
  subst hps
  simp only [buildScheduleList, List.head?_cons] at hhead
  have hp1 := (Option.some.inj hhead).symm
  subst hp1
  have hpb : (calculateMonthlyPayments (p : ℚ) n basePct avalPct ivaPct).payBase =
      pmt (p : ℚ) (basePct / 100) n := by
    simp only [calculateMonthlyPayments, quantize1_intCast]
  have hwpb : IsWhole (calculateMonthlyPayments (p : ℚ) n basePct avalPct ivaPct).payBase := by
    rw [hpb]
    exact isWhole_pmt _ _ _
  have hwav : IsWhole (calculateMonthlyPayments (p : ℚ) n basePct avalPct ivaPct).avalMonthly := by
    simp only [calculateMonthlyPayments]
    exact isWhole_quantize1 _
  have hwiv : IsWhole
      (calculateMonthlyPayments (p : ℚ) n basePct avalPct ivaPct).ivaAvalMonthly := by
    simp only [calculateMonthlyPayments]
    exact isWhole_quantize1 _
  have h30 : quantize1 ((p : ℚ) * (basePct / 100) * 30 / 30) =
      quantize1 ((p : ℚ) * (basePct / 100)) := by
    rw [show (p : ℚ) * (basePct / 100) * 30 / 30 = (p : ℚ) * (basePct / 100) from by ring]
  have hraw := capRaw_first_eq
    (calculateMonthlyPayments (p : ℚ) n basePct avalPct ivaPct).payBase
    (calculateMonthlyPayments (p : ℚ) n basePct avalPct ivaPct).avalMonthly
    (calculateMonthlyPayments (p : ℚ) n basePct avalPct ivaPct).ivaAvalMonthly
    (quantize1 ((p : ℚ) * (basePct / 100) *
      ((rataDie (fechaFinal1 startDate) - rataDie startDate : ℤ) : ℚ) / 30))
    (quantize1 ((p : ℚ) * (basePct / 100) * 30 / 30)) hwpb (isWhole_quantize1 _)
    (isWhole_quantize1 _)
  have hge : quantize1 ((p : ℚ) * (basePct / 100)) ≤
      (calculateMonthlyPayments (p : ℚ) n basePct avalPct ivaPct).payBase := by
    rw [hpb]
    exact pmt_ge_interes30 _ _ n hp0 hi hn
  have hle : (calculateMonthlyPayments (p : ℚ) n basePct avalPct ivaPct).payBase ≤
      quantize1 ((p : ℚ) * (basePct / 100)) + (p : ℚ) := by
    rw [hpb]
    have h1 := pmt_le_principal_plus (p : ℚ) (basePct / 100) n hp0 hi hn
    have h2 : quantize1 ((p : ℚ) * (1 + basePct / 100)) =
        quantize1 ((p : ℚ) * (basePct / 100)) + (p : ℚ) := by
      rw [show (p : ℚ) * (1 + basePct / 100) = (p : ℚ) * (basePct / 100) + ((p : ℤ) : ℚ) from by
        push_cast; ring,
        quantize1_add_intCast p (mul_nonneg hp0 hi.le)
          (by push_cast; nlinarith [mul_nonneg hp0 hi.le])]
      all_goals push_cast
      all_goals ring
    linarith [h2 ▸ h1]
  refine ⟨?_, ?_, rfl, rfl, ?_⟩
  · intro h
    show fechaFinal1 startDate = _
    rw [fechaFinal1, if_pos h]
  · intro h
    show fechaFinal1 startDate = _
    rw [fechaFinal1, if_neg h, nextMonthEnd]
    by_cases hm : startDate.month = 12
    · rw [if_pos hm, if_pos hm, if_pos hm]
    · rw [if_neg hm, if_neg hm, if_neg hm]
  · show quantize1 (clampCapital _ _ + _ + _ + _) = _
    rw [hraw, h30]
    rw [clampCapital_of_bounds (by linarith) (by linarith)]
    rw [quantize1_eq_self ((((hwpb.sub (isWhole_quantize1 _)).add hwav).add hwiv).add
      (isWhole_quantize1 _))]
    ring

/-- Claim C5 witness: principal 2,000,000 over 3 months at 1.88 / 7.05 /
19 disbursed 2025-03-10 (day 10, at most 15): installment 1 is due
2025-03-31, its prorated interest over the 21-day stub is 26,320, and its
total due is the monthly total less the interest remainder, 764,993. -/
theorem claim_C5_witness :
    ((generatedSchedule 2000000 3 (47/25) (141/20) 19 ⟨2025, 3, 10⟩ CreditType.natural none
        ⟨2025, 3, 10⟩).getD []).head?.map Payment.dueDate = some ⟨2025, 3, 31⟩ ∧
      ((generatedSchedule 2000000 3 (47/25) (141/20) 19 ⟨2025, 3, 10⟩ CreditType.natural none
        ⟨2025, 3, 10⟩).getD []).head?.map Payment.scheduledInterest = some 26320 ∧
      ((generatedSchedule 2000000 3 (47/25) (141/20) 19 ⟨2025, 3, 10⟩ CreditType.natural none
        ⟨2025, 3, 10⟩).getD []).head?.map Payment.scheduledTotal = some 764993 := by
  have hg := generatedSchedule_some 2000000 3 (47/25) (141/20) 19 ⟨2025, 3, 10⟩
    CreditType.natural none ⟨2025, 3, 10⟩ (by norm_num) (by norm_num) (by norm_num)
    (by norm_num) (by norm_num)
    (by norm_num [calculateMonthlyPayments, pmt, quantize1, roundHalfUp])
    (by norm_num [calculateMonthlyPayments, pmt, quantize1, roundHalfUp])
    (by norm_num [calculateMonthlyPayments, pmt, quantize1, roundHalfUp])
  obtain ⟨p1, hp1⟩ : ∃ q, (buildScheduleList (2000000 : ℚ)
      (calculateMonthlyPayments (2000000 : ℚ) 3 (47/25) (141/20) 19).payBase
      (calculateMonthlyPayments (2000000 : ℚ) 3 (47/25) (141/20) 19).avalMonthly
      (calculateMonthlyPayments (2000000 : ℚ) 3 (47/25) (141/20) 19).ivaAvalMonthly
      ((47/25 : ℚ) / 100) 3 ⟨2025, 3, 10⟩ CreditType.natural none).head? = some q := by
    simp only [buildScheduleList, List.head?_cons]
    exact ⟨_, rfl⟩
  have main := claim_C5_first_installment 2000000 (by norm_num) 3 (by norm_num)
    (47/25) (141/20) 19 (by norm_num) ⟨2025, 3, 10⟩ CreditType.natural none ⟨2025, 3, 10⟩
    _ p1 (by exact_mod_cast hg) hp1
  have hdue : p1.dueDate = ⟨2025, 3, 31⟩ := by
    rw [main.1 (by norm_num)]
    decide
  have hdays : (rataDie p1.dueDate - rataDie ⟨2025, 3, 10⟩ : ℤ) = 21 := by
    rw [hdue]
    decide
  have hint : p1.scheduledInterest = 26320 := by
    rw [main.2.2.2.1, hdays]
    norm_num [quantize1, roundHalfUp]
  have htot : p1.scheduledTotal = 764993 := by
    rw [main.2.2.2.2, hint]
    norm_num [calculateMonthlyPayments, pmt, quantize1, roundHalfUp]
  rw [hg]
  simp only [Option.getD_some]
  rw [show (if CreditType.natural = CreditType.libranza then (none : Option ℕ) else none) = none
    from by decide]
  rw [hp1]
  exact ⟨by simp only [Option.map_some']; rw [hdue],
    by simp only [Option.map_some']; rw [hint],
    by simp only [Option.map_some']; rw [htot]⟩

end Libramoneda
